import Mathlib

/-!
Shallow embedding of the Tubes-Blockchain repository (escrow dApp):
the Solidity `EscrowContract`, the oracle backend's verification gate,
ABI signature tables, the dummy IoT delivery simulation, the validator
service, and the auth session store.  Definitions are transcribed from
the source files; theorems settle the specification claims.
-/

namespace Escrow

/-- `enum EscrowStatus` of EscrowContract.sol (ordinals 0..8). -/
inductive EscrowStatus where
  | Created
  | PriceProposed
  | PriceRejected
  | Funded
  | InTransit
  | Delivered
  | Completed
  | Refunded
  | Disputed
deriving DecidableEq, Repr

/-- Numeric (uint8) value of each status, as fixed by the enum declaration order. -/
def EscrowStatus.toNat : EscrowStatus → Nat
  | .Created => 0
  | .PriceProposed => 1
  | .PriceRejected => 2
  | .Funded => 3
  | .InTransit => 4
  | .Delivered => 5
  | .Completed => 6
  | .Refunded => 7
  | .Disputed => 8

/-- Addresses are modelled as naturals; `0` is the zero address. -/
abbrev Address := Nat

/-- `struct Escrow` of EscrowContract.sol. -/
structure EscrowRec where
  id : Nat
  buyer : Address
  seller : Address
  amount : Nat
  destinationGPS : String
  minTemperature : Int
  maxTemperature : Int
  minHumidity : Int
  maxHumidity : Int
  minPressure : Int
  maxPressure : Int
  deadline : Nat
  status : EscrowStatus
  verified : Bool
  createdAt : Nat
  verifiedAt : Nat
deriving DecidableEq, Repr

/-- `struct VerificationData` of EscrowContract.sol. -/
structure VerificationData where
  currentGPS : String
  temperature : Int
  humidity : Int
  pressure : Int
  timestamp : Nat
  gpsMatched : Bool
  temperatureValid : Bool
  humidityValid : Bool
  pressureValid : Bool
deriving DecidableEq, Repr

/-- Contract storage relevant to the modelled operations. -/
structure ContractState where
  owner : Address
  oracle : Address
  escrowCounter : Nat
  escrows : Nat → EscrowRec
  verifications : Nat → VerificationData
  balance : Nat

/-- Transaction context (`msg.sender`, `msg.value`). -/
structure Msg where
  sender : Address
  value : Nat

/-- A value transfer performed by a call: recipient and amount. -/
abbrev Transfer := Address × Nat

/-- Result of an external call: revert message, or new state plus transfers. -/
abbrev CallResult := Except String (ContractState × List Transfer)

/-- `escrowExists` modifier condition. -/
def escrowExistsP (st : ContractState) (eid : Nat) : Prop :=
  0 < eid ∧ eid ≤ st.escrowCounter

instance (st : ContractState) (eid : Nat) : Decidable (escrowExistsP st eid) := by
  unfold escrowExistsP; infer_instance

/-- `true` on a revert (`Except.error`); a revert leaves storage unchanged. -/
def reverted (r : CallResult) : Bool :=
  match r with
  | .error _ => true
  | .ok _ => false

/-- The stored record of escrow `eid` after a successful call, `none` on revert. -/
def escrowAfter (r : CallResult) (eid : Nat) : Option EscrowRec :=
  match r with
  | .ok (st, _) => some (st.escrows eid)
  | .error _ => none

/-- The status of escrow `eid` after a successful call, `none` on revert. -/
def statusAfter (r : CallResult) (eid : Nat) : Option EscrowStatus :=
  (escrowAfter r eid).map (·.status)

/-- The value transfers performed by a successful call, `none` on revert. -/
def transfersOf (r : CallResult) : Option (List Transfer) :=
  match r with
  | .ok (_, ts) => some ts
  | .error _ => none

/-- `setPriceAndApprove(_escrowId, _amount)`. -/
def setPriceAndApprove (st : ContractState) (msg : Msg) (eid amount : Nat) : CallResult :=
  if ¬ escrowExistsP st eid then .error "Escrow does not exist"
  else if (st.escrows eid).seller ≠ msg.sender then .error "Only seller can call this function"
  else if (st.escrows eid).status ≠ .Created then .error "Invalid escrow status"
  else if ¬ 0 < amount then .error "Amount must be greater than 0"
  else
    let escrow1 := {st.escrows eid with amount := amount, status := .PriceProposed}
    .ok ({st with escrows := Function.update st.escrows eid escrow1}, [])

/-- `rejectPrice(_escrowId)`. -/
def rejectPrice (st : ContractState) (msg : Msg) (eid : Nat) : CallResult :=
  if ¬ escrowExistsP st eid then .error "Escrow does not exist"
  else if (st.escrows eid).seller ≠ msg.sender then .error "Only seller can call this function"
  else if (st.escrows eid).status ≠ .Created then .error "Invalid escrow status"
  else
    let escrow1 := {st.escrows eid with status := .PriceRejected}
    .ok ({st with escrows := Function.update st.escrows eid escrow1}, [])

/-- `fundEscrow(_escrowId)` (payable). -/
def fundEscrow (st : ContractState) (msg : Msg) (eid : Nat) : CallResult :=
  if ¬ escrowExistsP st eid then .error "Escrow does not exist"
  else if (st.escrows eid).buyer ≠ msg.sender then .error "Only buyer can call this function"
  else if (st.escrows eid).status ≠ .PriceProposed then .error "Invalid escrow status"
  else if msg.value ≠ (st.escrows eid).amount then .error "Payment amount must match proposed price"
  else
    let escrow1 := {st.escrows eid with status := .Funded}
    .ok ({st with escrows := Function.update st.escrows eid escrow1, balance := st.balance + msg.value}, [])

/-- `startDelivery(_escrowId)`. -/
def startDelivery (st : ContractState) (msg : Msg) (eid : Nat) : CallResult :=
  if ¬ escrowExistsP st eid then .error "Escrow does not exist"
  else if (st.escrows eid).seller ≠ msg.sender then .error "Only seller can call this function"
  else if (st.escrows eid).status ≠ .Funded then .error "Invalid escrow status"
  else
    let escrow1 := {st.escrows eid with status := .InTransit}
    .ok ({st with escrows := Function.update st.escrows eid escrow1}, [])

/-- `markDelivered(_escrowId)`. -/
def markDelivered (st : ContractState) (msg : Msg) (eid : Nat) : CallResult :=
  if ¬ escrowExistsP st eid then .error "Escrow does not exist"
  else if (st.escrows eid).seller ≠ msg.sender then .error "Only seller can call this function"
  else if (st.escrows eid).status ≠ .InTransit then .error "Invalid escrow status"
  else
    let escrow1 := {st.escrows eid with status := .Delivered}
    .ok ({st with escrows := Function.update st.escrows eid escrow1}, [])

/-- `verifyDelivery(...)`: oracle-only verification with conditional fund release.
`callOk r a` models whether the low-level value transfer of `a` to `r` succeeds. -/
def verifyDelivery (st : ContractState) (msg : Msg) (now : Nat)
    (callOk : Address → Nat → Bool) (eid : Nat) (currentGPS : String)
    (temperature humidity pressure : Int)
    (gpsMatched temperatureValid humidityValid pressureValid : Bool) : CallResult :=
  if msg.sender ≠ st.oracle then .error "Only oracle can call this function"
  else if ¬ escrowExistsP st eid then .error "Escrow does not exist"
  else
    let escrow := st.escrows eid
    if escrow.status ≠ .Delivered then .error "Escrow must be in Delivered status"
    else if escrow.verified then .error "Escrow already verified"
    else
      let vd : VerificationData :=
        ⟨currentGPS, temperature, humidity, pressure, now,
         gpsMatched, temperatureValid, humidityValid, pressureValid⟩
      let st1 := {st with verifications := Function.update st.verifications eid vd}
      let verified := gpsMatched && temperatureValid && humidityValid && pressureValid
      let escrow1 := {escrow with verified := verified, verifiedAt := now}
      if verified then
        let escrow2 := {escrow1 with status := .Completed, verified := true}
        if escrow2.status ≠ .Completed then .error "Invalid status for release"
        else if callOk escrow2.seller escrow2.amount = false then .error "Transfer failed"
        else .ok ({st1 with escrows := Function.update st1.escrows eid escrow2, balance := st1.balance - escrow2.amount}, [(escrow2.seller, escrow2.amount)])
      else .ok ({st1 with escrows := Function.update st1.escrows eid escrow1}, [])

/-- `refund(_escrowId)`. -/
def refund (st : ContractState) (msg : Msg) (now : Nat)
    (callOk : Address → Nat → Bool) (eid : Nat) : CallResult :=
  if ¬ escrowExistsP st eid then .error "Escrow does not exist"
  else
    let escrow := st.escrows eid
    if ¬ (escrow.status = .Funded ∨ escrow.status = .InTransit ∨ escrow.status = .Delivered) then
      .error "Cannot refund this escrow"
    else if ¬ (msg.sender = escrow.buyer ∨ msg.sender = st.owner ∨ msg.sender = st.oracle) then
      .error "Only buyer, owner, or oracle can refund"
    else if msg.sender = escrow.buyer ∧ ¬ escrow.deadline < now then
      .error "Deadline not yet passed"
    else if escrow.verified then .error "Delivery already verified"
    else if ¬ 0 < escrow.amount then .error "No funds to refund"
    else
      let escrow1 := {escrow with status := .Refunded}
      if callOk escrow.buyer escrow.amount = false then .error "Refund failed"
      else .ok ({st with escrows := Function.update st.escrows eid escrow1, balance := st.balance - escrow.amount}, [(escrow.buyer, escrow.amount)])

/-- `adminUpdateStatus(_escrowId, _newStatus)`: owner/oracle-gated override. -/
def adminUpdateStatus (st : ContractState) (msg : Msg)
    (callOk : Address → Nat → Bool) (eid : Nat) (newStatus : EscrowStatus) : CallResult :=
  if ¬ escrowExistsP st eid then .error "Escrow does not exist"
  else if ¬ (msg.sender = st.owner ∨ msg.sender = st.oracle) then
    .error "Only owner or oracle can call this function"
  else
    let escrow := st.escrows eid
    let oldStatus := escrow.status
    if newStatus = .Completed ∧ oldStatus ≠ .Completed then
      if ¬ (oldStatus ≠ .Refunded ∧ oldStatus ≠ .Completed) then
        .error "Cannot complete refunded or already completed escrow"
      else if ¬ 0 < escrow.amount then .error "Escrow amount must be greater than 0"
      else if ¬ escrow.amount ≤ st.balance then .error "Contract does not have enough balance"
      else
        let escrow1 := {escrow with status := .Completed, verified := true}
        if callOk escrow.seller escrow.amount = false then .error "Transfer failed"
        else .ok ({st with escrows := Function.update st.escrows eid escrow1, balance := st.balance - escrow.amount}, [(escrow.seller, escrow.amount)])
    else if newStatus = .Refunded ∧ oldStatus ≠ .Refunded then
      if ¬ (oldStatus ≠ .Completed ∧ oldStatus ≠ .Refunded) then
        .error "Cannot refund completed or already refunded escrow"
      else if ¬ 0 < escrow.amount then .error "Escrow amount must be greater than 0"
      else if ¬ escrow.amount ≤ st.balance then .error "Contract does not have enough balance"
      else
        let escrow1 := {escrow with status := .Refunded}
        if callOk escrow.buyer escrow.amount = false then .error "Refund failed"
        else .ok ({st with escrows := Function.update st.escrows eid escrow1, balance := st.balance - escrow.amount}, [(escrow.buyer, escrow.amount)])
    else
      let escrow1 := {escrow with status := newStatus}
      .ok ({st with escrows := Function.update st.escrows eid escrow1}, [])

end Escrow

namespace Abi

/-- A function or event signature: name and canonical ABI parameter types. -/
structure FnSig where
  name : String
  params : List String
deriving DecidableEq, Repr

/-- Event signatures in the backend's `ESCROW_CONTRACT_ABI`
(src/oracle/src/config/contractConfig.js, lines 11-19 and 40). -/
def backendAbiEvents : List FnSig :=
  [⟨"EscrowCreated", ["uint256", "address", "address", "uint256", "string", "uint256"]⟩,
   ⟨"EscrowFunded", ["uint256", "uint256"]⟩,
   ⟨"EscrowApproved", ["uint256", "address"]⟩,
   ⟨"DeliveryStarted", ["uint256", "uint256"]⟩,
   ⟨"DeliveryMarked", ["uint256", "address"]⟩,
   ⟨"VerificationRequested", ["uint256", "address"]⟩,
   ⟨"DeliveryVerified", ["uint256", "bool", "bool", "bool"]⟩,
   ⟨"FundsReleased", ["uint256", "address", "uint256"]⟩,
   ⟨"EscrowRefunded", ["uint256", "address", "uint256"]⟩,
   ⟨"StatusUpdated", ["uint256", "uint8", "uint8"]⟩]

/-- Function signatures in the backend's `ESCROW_CONTRACT_ABI`
(src/oracle/src/config/contractConfig.js, lines 22-38). -/
def backendAbiFunctions : List FnSig :=
  [⟨"getEscrow", ["uint256"]⟩,
   ⟨"getVerification", ["uint256"]⟩,
   ⟨"getUserEscrows", ["address"]⟩,
   ⟨"getEscrowStatus", ["uint256"]⟩,
   ⟨"isEscrowActive", ["uint256"]⟩,
   ⟨"escrowCounter", []⟩,
   ⟨"oracle", []⟩,
   ⟨"approveEscrow", ["uint256"]⟩,
   ⟨"startDelivery", ["uint256"]⟩,
   ⟨"markDelivered", ["uint256"]⟩,
   ⟨"verifyDelivery", ["uint256", "string", "int256", "bool", "bool"]⟩,
   ⟨"resetEscrowCounter", []⟩,
   ⟨"clearUserEscrows", ["address"]⟩,
   ⟨"adminUpdateStatus", ["uint256", "uint8"]⟩,
   ⟨"owner", []⟩]

/-- Event signatures declared by EscrowContract.sol (enum parameters as uint8). -/
def contractEvents : List FnSig :=
  [⟨"EscrowCreated", ["uint256", "address", "address", "string", "uint256"]⟩,
   ⟨"PriceProposed", ["uint256", "address", "uint256"]⟩,
   ⟨"PriceRejected", ["uint256", "address"]⟩,
   ⟨"EscrowFunded", ["uint256", "uint256"]⟩,
   ⟨"EscrowApproved", ["uint256", "address"]⟩,
   ⟨"DeliveryStarted", ["uint256", "uint256"]⟩,
   ⟨"DeliveryMarked", ["uint256", "address"]⟩,
   ⟨"VerificationRequested", ["uint256", "address"]⟩,
   ⟨"DeliveryVerified", ["uint256", "bool", "bool", "bool", "bool", "bool"]⟩,
   ⟨"FundsReleased", ["uint256", "address", "uint256"]⟩,
   ⟨"EscrowRefunded", ["uint256", "address", "uint256"]⟩,
   ⟨"OracleUpdated", ["address", "address"]⟩,
   ⟨"StatusUpdated", ["uint256", "uint8", "uint8"]⟩]

/-- External/public function signatures of EscrowContract.sol, including the
compiler-generated getters for its public state variables (enums as uint8). -/
def contractFunctions : List FnSig :=
  [⟨"createEscrow", ["address", "string", "int256", "int256", "int256", "int256", "int256", "int256", "uint256"]⟩,
   ⟨"setPriceAndApprove", ["uint256", "uint256"]⟩,
   ⟨"rejectPrice", ["uint256"]⟩,
   ⟨"fundEscrow", ["uint256"]⟩,
   ⟨"approveEscrow", ["uint256"]⟩,
   ⟨"startDelivery", ["uint256"]⟩,
   ⟨"markDelivered", ["uint256"]⟩,
   ⟨"requestVerification", ["uint256"]⟩,
   ⟨"verifyDelivery", ["uint256", "string", "int256", "int256", "int256", "bool", "bool", "bool", "bool"]⟩,
   ⟨"refund", ["uint256"]⟩,
   ⟨"getEscrow", ["uint256"]⟩,
   ⟨"getVerification", ["uint256"]⟩,
   ⟨"getUserEscrows", ["address"]⟩,
   ⟨"getEscrowStatus", ["uint256"]⟩,
   ⟨"isEscrowActive", ["uint256"]⟩,
   ⟨"setOracle", ["address"]⟩,
   ⟨"getContractBalance", []⟩,
   ⟨"resetEscrowCounter", []⟩,
   ⟨"clearUserEscrows", ["address"]⟩,
   ⟨"clearAllUserEscrows", []⟩,
   ⟨"adminUpdateStatus", ["uint256", "uint8"]⟩,
   ⟨"owner", []⟩,
   ⟨"oracle", []⟩,
   ⟨"escrowCounter", []⟩,
   ⟨"GPS_TOLERANCE", []⟩,
   ⟨"escrows", ["uint256"]⟩,
   ⟨"verifications", ["uint256"]⟩,
   ⟨"userEscrows", ["address", "uint256"]⟩]

/-- An ABI entry "matches the contract exactly" when the same name with the
same parameter types appears among the contract's functions or events. -/
def matchesContract (s : FnSig) : Prop :=
  s ∈ contractFunctions ∨ s ∈ contractEvents

instance (s : FnSig) : Decidable (matchesContract s) := by
  unfold matchesContract; infer_instance

end Abi

namespace OracleSvc

/-- Early-exit outcome of `processVerificationRequest`
(src/oracle/src/services/blockchainService.js, lines 110-120). -/
inductive VerifyOutcome where
  | alreadyVerified
  | statusNotReady (currentStatus : Nat)
  | proceedPipeline
deriving DecidableEq, Repr

/-- The status/verified gate at the top of `processVerificationRequest`:
`if (escrow.verified) return {alreadyVerified}` then
`if (escrow.status !== 3) return {statusNotReady, currentStatus}` — the
literal `3` is the code's hard-coded "Delivered" status code. -/
def processVerificationGate (status : Nat) (verified : Bool) : VerifyOutcome :=
  if verified then .alreadyVerified
  else if status ≠ 3 then .statusNotReady status
  else .proceedPipeline

end OracleSvc

namespace Sim

/-- Simulation status strings of dummyIoTService. -/
inductive SimStatus where
  | inTransit
  | delivered
  | stopped
deriving DecidableEq, Repr

/-- A GPS coordinate pair; JS numbers are modelled as rationals. -/
structure GPS where
  latitude : ℚ
  longitude : ℚ
deriving DecidableEq, Repr

/-- One entry of a delivery's rolling history (most recent 50 kept). -/
structure HistoryEntry where
  gps : GPS
  temperature : ℚ
  progress : ℚ
deriving DecidableEq, Repr

/-- The in-memory delivery record created by `startDeliverySimulation`,
plus a flag recording whether the 2-second tick timer is still set. -/
structure Delivery where
  origin : GPS
  destination : GPS
  currentGPS : GPS
  temperature : ℚ
  minTemp : ℚ
  maxTemp : ℚ
  duration : Nat
  progress : ℚ
  status : SimStatus
  history : List HistoryEntry
  timerActive : Bool
deriving DecidableEq, Repr

/-- Configuration of `startDeliverySimulation` (defaults applied by caller). -/
structure SimConfig where
  originGPS : GPS
  destinationGPS : GPS
  minTemp : ℚ
  maxTemp : ℚ
  duration : Nat
deriving DecidableEq, Repr

/-- `const steps = Math.floor(duration / 2000)`. -/
def steps (cfg : SimConfig) : Nat := cfg.duration / 2000

/-- The delivery record as built by `startDeliverySimulation` before any tick. -/
def initialDelivery (cfg : SimConfig) : Delivery :=
  { origin := cfg.originGPS
    destination := cfg.destinationGPS
    currentGPS := cfg.originGPS
    temperature := cfg.minTemp + (cfg.maxTemp - cfg.minTemp) / 2
    minTemp := cfg.minTemp
    maxTemp := cfg.maxTemp
    duration := cfg.duration
    progress := 0
    status := .inTransit
    history := []
    timerActive := true }

/-- `stopDeliverySimulation`: clears the interval and marks the (still
present) record `stopped`. -/
def stopDelivery (d : Delivery) : Delivery :=
  {d with timerActive := false, status := .stopped}

/-- One interval tick with counter value `stepCount`; `rand` is the uniform
sample used for the temperature variation.  If the timer has been cleared
the callback no longer runs. -/
def tick (cfg : SimConfig) (rand : ℚ) (stepCount : Nat) (d : Delivery) : Delivery :=
  if ¬ d.timerActive then d
  else
    let n : ℚ := steps cfg
    let latStep := (cfg.destinationGPS.latitude - cfg.originGPS.latitude) / n
    let lngStep := (cfg.destinationGPS.longitude - cfg.originGPS.longitude) / n
    let progress := min ((stepCount : ℚ) / n) 1
    let gps1 : GPS := ⟨cfg.originGPS.latitude + latStep * stepCount,
                       cfg.originGPS.longitude + lngStep * stepCount⟩
    let baseTemp := cfg.minTemp + (cfg.maxTemp - cfg.minTemp) * (1 / 2)
    let variation := (rand - 1 / 2) * 5
    let temp := max cfg.minTemp (min cfg.maxTemp (baseTemp + variation))
    let hist1 := d.history ++ [⟨gps1, temp, progress⟩]
    let hist2 := if 50 < hist1.length then hist1.drop 1 else hist1
    let d1 := {d with currentGPS := gps1, temperature := temp,
                      progress := progress, history := hist2}
    if 1 ≤ progress then
      stopDelivery {d1 with status := .delivered, currentGPS := cfg.destinationGPS}
    else d1

/-- The delivery record after `n` elapsed tick periods. -/
def simAfter (cfg : SimConfig) (rand : Nat → ℚ) : Nat → Delivery
  | 0 => initialDelivery cfg
  | n + 1 => tick cfg (rand n) (n + 1) (simAfter cfg rand n)

/-- Default origin (Jakarta) used when the caller supplies none. -/
def defaultOrigin : GPS := ⟨-61751 / 10000, 1068650 / 10000⟩

/-- The concrete configuration of the spec's completion scenario: default
origin, the reference destination (-6.2088, 106.8456), default temperature
band 0..30 and default duration 60000 ms. -/
def scenarioConfig : SimConfig :=
  { originGPS := defaultOrigin
    destinationGPS := ⟨-62088 / 10000, 1068456 / 10000⟩
    minTemp := 0
    maxTemp := 30
    duration := 60000 }

end Sim

namespace Validator

/-- Result of `validateTemperature` (validatorService.js, lines 69-91). -/
structure TempResult where
  valid : Bool
  delta : ℚ
  current : ℚ
  min : ℚ
  max : ℚ
deriving DecidableEq, Repr

/-- `validateTemperature(temperature, minTemperature, maxTemperature)`:
divides the ×100-scaled bounds by 100 and band-checks the raw reading. -/
def validateTemperature (temperature minTemperature maxTemperature : ℚ) : TempResult :=
  let minTemp := minTemperature / 100
  let maxTemp := maxTemperature / 100
  let valid := decide (minTemp ≤ temperature ∧ temperature ≤ maxTemp)
  let delta :=
    if temperature < minTemp then temperature - minTemp
    else if maxTemp < temperature then temperature - maxTemp
    else 0
  { valid := valid, delta := delta, current := temperature, min := minTemp, max := maxTemp }

end Validator

namespace Auth

/-- A calendar timestamp (UTC), millisecond precision. -/
structure DateTime where
  year : Nat
  month : Nat
  day : Nat
  hour : Nat
  minute : Nat
  second : Nat
  ms : Nat
deriving DecidableEq, Repr

/-- Positional encoding that is strictly monotone in chronological order
for in-range field values; used to say "instant a is before instant b". -/
def DateTime.toMillis (d : DateTime) : Nat :=
  ((((d.year * 13 + d.month) * 32 + d.day) * 24 + d.hour) * 60 + d.minute) * 60000
    + d.second * 1000 + d.ms

/-- Zero-pad a numeral to two digits. -/
def pad2 (n : Nat) : String :=
  if n < 10 then "0" ++ toString n else toString n

/-- Zero-pad a numeral to three digits. -/
def pad3 (n : Nat) : String :=
  if n < 10 then "00" ++ toString n else if n < 100 then "0" ++ toString n else toString n

/-- JavaScript `Date.prototype.toISOString`: "YYYY-MM-DDTHH:MM:SS.sssZ".
`Session.create` stores `expiresAt.toISOString()` into `expires_at`. -/
def isoString (d : DateTime) : String :=
  toString d.year ++ "-" ++ pad2 d.month ++ "-" ++ pad2 d.day ++ "T" ++
    pad2 d.hour ++ ":" ++ pad2 d.minute ++ ":" ++ pad2 d.second ++ "." ++ pad3 d.ms ++ "Z"

/-- SQLite `datetime('now')`: "YYYY-MM-DD HH:MM:SS". -/
def sqliteNow (d : DateTime) : String :=
  toString d.year ++ "-" ++ pad2 d.month ++ "-" ++ pad2 d.day ++ " " ++
    pad2 d.hour ++ ":" ++ pad2 d.minute ++ ":" ++ pad2 d.second

/-- Lexicographic comparison of character lists by code point — SQLite's
BINARY text collation restricted to the ASCII strings compared here. -/
def charsLt : List Char → List Char → Bool
  | [], [] => false
  | [], _ :: _ => true
  | _ :: _, [] => false
  | a :: as, b :: bs =>
    if a.toNat < b.toNat then true
    else if b.toNat < a.toNat then false
    else charsLt as bs

/-- `a < b` for TEXT values under SQLite's default BINARY collation. -/
def strLt (a b : String) : Bool := charsLt a.data b.data

/-- A row of the `users` table (columns used by the modelled routes). -/
structure UserRow where
  id : Nat
  username : String
  email : String
  role : String
  wallet_address : String
deriving DecidableEq, Repr

/-- A row of the `sessions` table; `expires_at` is stored as the ISO
serialization of this instant. -/
structure SessionRow where
  user_id : Nat
  token : String
  wallet_address : String
  expires_at : DateTime
deriving DecidableEq, Repr

/-- The row shape returned by `Session.findByToken`:
`SELECT s.*, u.username, u.email, u.role`. -/
structure JoinedRow where
  user_id : Nat
  token : String
  wallet_address : String
  expires_at : DateTime
  username : String
  email : String
  role : String
deriving DecidableEq, Repr

/-- Join a session row with its user row. -/
def joinRow (s : SessionRow) (u : UserRow) : JoinedRow :=
  { user_id := s.user_id, token := s.token, wallet_address := s.wallet_address,
    expires_at := s.expires_at, username := u.username, email := u.email, role := u.role }

/-- `Session.findByToken`: first sessions-users join row with the given
token and `s.expires_at > datetime('now')` — a lexicographic comparison of
the stored ISO string against SQLite's "YYYY-MM-DD HH:MM:SS" text. -/
def findByToken (users : List UserRow) (sessions : List SessionRow)
    (now : DateTime) (token : String) : Option JoinedRow :=
  (sessions.filterMap fun s =>
    if s.token = token ∧ strLt (sqliteNow now) (isoString s.expires_at) = true then
      (users.find? fun u => u.id = s.user_id).map (joinRow s)
    else none).head?

/-- The bearer gate shared by GET /verify, GET/PUT /wallet, POST /logout:
a request authorizes iff `findByToken` returns a row. -/
def bearerAuthorized (users : List UserRow) (sessions : List SessionRow)
    (now : DateTime) (token : String) : Bool :=
  (findByToken users sessions now token).isSome

/-- The state change of a successful PUT /api/auth/wallet
(authRoutes.js lines 297-309): `User.update` rewrites the user row with its
own username/email/role and the new lowercase address, and `Session.create`
inserts one fresh session row; no session row is deleted or modified. -/
def walletUpdateApply (users : List UserRow) (sessions : List SessionRow)
    (uid : Nat) (newAddr : String) (newSession : SessionRow) :
    List UserRow × List SessionRow :=
  (users.map fun u =>
    if u.id = uid then
      {u with username := u.username, email := u.email, role := u.role,
              wallet_address := newAddr}
    else u,
   sessions ++ [newSession])

end Auth

namespace Escrow

/-- An empty verification slot (Solidity mapping default). -/
def noVerification : VerificationData :=
  ⟨"", 0, 0, 0, 0, false, false, false, false⟩

/-- A concrete escrow record used to instantiate the theorems. -/
def sampleEscrow (s : EscrowStatus) : EscrowRec :=
  { id := 1, buyer := 11, seller := 22, amount := 1000,
    destinationGPS := "-6.2088,106.8456",
    minTemperature := 0, maxTemperature := 3000,
    minHumidity := 3000, maxHumidity := 7000,
    minPressure := 100000, maxPressure := 103000,
    deadline := 5000, status := s, verified := false,
    createdAt := 100, verifiedAt := 0 }

/-- A concrete contract state holding `sampleEscrow s` as escrow 1. -/
def sampleState (s : EscrowStatus) : ContractState :=
  { owner := 1, oracle := 2, escrowCounter := 1,
    escrows := fun _ => sampleEscrow s,
    verifications := fun _ => noVerification,
    balance := 1000 }

/-- A transfer environment in which every value call succeeds. -/
def okAll : Address → Nat → Bool := fun _ _ => true

end Escrow

namespace Escrow

/-- C1: for an unverified escrow in Delivered status, `verifyDelivery` by the
oracle with all four sub-check booleans true moves the status to Completed,
sets verified, and transfers exactly the escrow amount to the seller; with
any boolean false the call still succeeds but leaves the status Delivered,
leaves verified false, and transfers nothing. -/
theorem verifyDelivery_releases_iff_all_checks
    (st : ContractState) (msg : Msg) (now : Nat) (callOk : Address → Nat → Bool)
    (eid : Nat) (gps : String) (t h p : Int) (bg bt bh bp : Bool)
    (hex : escrowExistsP st eid)
    (hst : (st.escrows eid).status = .Delivered)
    (hver : (st.escrows eid).verified = false)
    (hsender : msg.sender = st.oracle)
    (hcall : callOk (st.escrows eid).seller (st.escrows eid).amount = true) :
    (bg = true ∧ bt = true ∧ bh = true ∧ bp = true →
      statusAfter (verifyDelivery st msg now callOk eid gps t h p bg bt bh bp) eid
          = some .Completed ∧
      (escrowAfter (verifyDelivery st msg now callOk eid gps t h p bg bt bh bp) eid).map
          (·.verified) = some true ∧
      transfersOf (verifyDelivery st msg now callOk eid gps t h p bg bt bh bp)
          = some [((st.escrows eid).seller, (st.escrows eid).amount)]) ∧
    (¬ (bg = true ∧ bt = true ∧ bh = true ∧ bp = true) →
      statusAfter (verifyDelivery st msg now callOk eid gps t h p bg bt bh bp) eid
          = some .Delivered ∧
      (escrowAfter (verifyDelivery st msg now callOk eid gps t h p bg bt bh bp) eid).map
          (·.verified) = some false ∧
      transfersOf (verifyDelivery st msg now callOk eid gps t h p bg bt bh bp)
          = some []) := by
  constructor
  · rintro ⟨rfl, rfl, rfl, rfl⟩
    simp [verifyDelivery, hex, hst, hver, hsender, hcall, statusAfter, escrowAfter,
          transfersOf, Function.update]
  · intro hnot
    have hfalse : (bg && bt && bh && bp) = false := by
      rcases bg <;> rcases bt <;> rcases bh <;> rcases bp <;> simp_all
    simp [verifyDelivery, hex, hst, hver, hsender, hfalse, statusAfter, escrowAfter,
          transfersOf, Function.update]

/-- Witness: the C1 theorem applied to a concrete Delivered escrow, once with
all booleans true and once with the humidity check false. -/
theorem verifyDelivery_releases_iff_all_checks_witness :
    escrowExistsP (sampleState .Delivered) 1 ∧
    ((sampleState .Delivered).escrows 1).status = .Delivered ∧
    (statusAfter (verifyDelivery (sampleState .Delivered) ⟨2, 0⟩ 777 okAll 1 "g" 2500 50 1013
        true true true true) 1 = some .Completed ∧
      transfersOf (verifyDelivery (sampleState .Delivered) ⟨2, 0⟩ 777 okAll 1 "g" 2500 50 1013
        true true true true) = some [(22, 1000)]) ∧
    (statusAfter (verifyDelivery (sampleState .Delivered) ⟨2, 0⟩ 777 okAll 1 "g" 2500 50 1013
        true true false true) 1 = some .Delivered ∧
      transfersOf (verifyDelivery (sampleState .Delivered) ⟨2, 0⟩ 777 okAll 1 "g" 2500 50 1013
        true true false true) = some []) := by
  refine ⟨by decide, rfl, ?_, ?_⟩
  · have h1 := verifyDelivery_releases_iff_all_checks (sampleState .Delivered) ⟨2, 0⟩ 777 okAll
      1 "g" 2500 50 1013 true true true true (by decide) rfl rfl rfl rfl
    exact ⟨(h1.1 ⟨rfl, rfl, rfl, rfl⟩).1, (h1.1 ⟨rfl, rfl, rfl, rfl⟩).2.2⟩
  · have h2 := verifyDelivery_releases_iff_all_checks (sampleState .Delivered) ⟨2, 0⟩ 777 okAll
      1 "g" 2500 50 1013 true true false true (by decide) rfl rfl rfl rfl
    exact ⟨(h2.2 (by simp)).1, (h2.2 (by simp)).2.2⟩

end Escrow

namespace Escrow

/-- C2 (amended): once an escrow's status is PriceRejected, Completed or
Refunded, the guarded operations setPriceAndApprove, rejectPrice,
fundEscrow, startDelivery, markDelivered, verifyDelivery and refund all
revert (and, reverting, leave the stored record unchanged), for every
caller and argument choice.  adminUpdateStatus is excluded: see the
counterexample. -/
theorem terminal_status_ops_revert
    (st : ContractState) (msg : Msg) (eid amt now : Nat)
    (callOk : Address → Nat → Bool) (gps : String) (t h p : Int) (bg bt bh bp : Bool)
    (hterm : (st.escrows eid).status = .PriceRejected ∨
             (st.escrows eid).status = .Completed ∨
             (st.escrows eid).status = .Refunded) :
    reverted (setPriceAndApprove st msg eid amt) = true ∧
    reverted (rejectPrice st msg eid) = true ∧
    reverted (fundEscrow st msg eid) = true ∧
    reverted (startDelivery st msg eid) = true ∧
    reverted (markDelivered st msg eid) = true ∧
    reverted (verifyDelivery st msg now callOk eid gps t h p bg bt bh bp) = true ∧
    reverted (refund st msg now callOk eid) = true := by
  refine ⟨?_, ?_, ?_, ?_, ?_, ?_, ?_⟩
  · simp only [setPriceAndApprove]
    split_ifs <;> simp_all [reverted]
  · simp only [rejectPrice]
    split_ifs <;> simp_all [reverted]
  · simp only [fundEscrow]
    split_ifs <;> simp_all [reverted]
  · simp only [startDelivery]
    split_ifs <;> simp_all [reverted]
  · simp only [markDelivered]
    split_ifs <;> simp_all [reverted]
  · simp only [verifyDelivery]
    split_ifs <;> simp_all [reverted]
  · rcases hterm with h1 | h1 | h1 <;>
      (simp only [refund, h1]; split_ifs <;> simp_all [reverted])

/-- Witness: the amended C2 theorem applied to a concrete PriceRejected escrow. -/
theorem terminal_status_ops_revert_witness :
    ((sampleState .PriceRejected).escrows 1).status = .PriceRejected ∧
    reverted (setPriceAndApprove (sampleState .PriceRejected) ⟨22, 0⟩ 1 500) = true ∧
    reverted (refund (sampleState .PriceRejected) ⟨11, 0⟩ 9999 okAll 1) = true := by
  have h := terminal_status_ops_revert (sampleState .PriceRejected) ⟨22, 0⟩ 1 500 9999 okAll
    "g" 0 0 0 true true true true (Or.inl rfl)
  have h2 := terminal_status_ops_revert (sampleState .PriceRejected) ⟨11, 0⟩ 1 500 9999 okAll
    "g" 0 0 0 true true true true (Or.inl rfl)
  exact ⟨rfl, h.1, h2.2.2.2.2.2.2⟩

/-- C2 counterexample: on an escrow whose status is PriceRejected,
`adminUpdateStatus` called by the owner with target status Funded succeeds
and changes the stored status, contradicting the claim that every
state-changing operation (adminUpdateStatus included) fails and leaves the
record unchanged. -/
theorem adminUpdateStatus_escapes_terminal_status :
    ((sampleState .PriceRejected).escrows 1).status = .PriceRejected ∧
    reverted (adminUpdateStatus (sampleState .PriceRejected) ⟨1, 0⟩ okAll 1 .Funded) = false ∧
    statusAfter (adminUpdateStatus (sampleState .PriceRejected) ⟨1, 0⟩ okAll 1 .Funded) 1
      = some .Funded := by
  refine ⟨rfl, rfl, rfl⟩

/-- C3: for an escrow in PriceProposed status, `fundEscrow` called by the
buyer succeeds exactly when the attached value equals the proposed amount
(moving the status to Funded), and reverts for any other value, leaving the
record unchanged (revert semantics). -/
theorem fundEscrow_exact_payment
    (st : ContractState) (msg : Msg) (eid : Nat)
    (hex : escrowExistsP st eid)
    (hbuyer : (st.escrows eid).buyer = msg.sender)
    (hst : (st.escrows eid).status = .PriceProposed) :
    (msg.value = (st.escrows eid).amount →
      statusAfter (fundEscrow st msg eid) eid = some .Funded ∧
      reverted (fundEscrow st msg eid) = false) ∧
    (msg.value ≠ (st.escrows eid).amount →
      reverted (fundEscrow st msg eid) = true) := by
  constructor
  · intro hval
    simp [fundEscrow, hex, hbuyer, hst, hval, statusAfter, escrowAfter, reverted,
          Function.update]
  · intro hval
    simp [fundEscrow, hex, hbuyer, hst, hval, reverted]

/-- Witness: C3 at a concrete PriceProposed escrow with amount 1000, funded
with exactly 1000 (success) and with 999 and 1001 (reverts). -/
theorem fundEscrow_exact_payment_witness :
    escrowExistsP (sampleState .PriceProposed) 1 ∧
    statusAfter (fundEscrow (sampleState .PriceProposed) ⟨11, 1000⟩ 1) 1 = some .Funded ∧
    reverted (fundEscrow (sampleState .PriceProposed) ⟨11, 999⟩ 1) = true ∧
    reverted (fundEscrow (sampleState .PriceProposed) ⟨11, 1001⟩ 1) = true := by
  refine ⟨by decide, ?_, ?_, ?_⟩
  · exact ((fundEscrow_exact_payment (sampleState .PriceProposed) ⟨11, 1000⟩ 1
      (by decide) rfl rfl).1 rfl).1
  · exact (fundEscrow_exact_payment (sampleState .PriceProposed) ⟨11, 999⟩ 1
      (by decide) rfl rfl).2 (by decide)
  · exact (fundEscrow_exact_payment (sampleState .PriceProposed) ⟨11, 1001⟩ 1
      (by decide) rfl rfl).2 (by decide)

/-- C4: for an escrow in Funded, InTransit or Delivered status with positive
amount and verified false: a refund call by the buyer reverts while the
current block time is not strictly greater than the deadline and succeeds
strictly after it, setting the status to Refunded and transferring exactly
the escrow amount back to the buyer; a call by the owner or the oracle (as
a party distinct from the buyer) succeeds with the same effect without any
deadline condition. -/
theorem refund_deadline_gating
    (st : ContractState) (msg : Msg) (now : Nat) (callOk : Address → Nat → Bool) (eid : Nat)
    (hex : escrowExistsP st eid)
    (hst : (st.escrows eid).status = .Funded ∨ (st.escrows eid).status = .InTransit ∨
           (st.escrows eid).status = .Delivered)
    (hamt : 0 < (st.escrows eid).amount)
    (hver : (st.escrows eid).verified = false)
    (hcall : callOk (st.escrows eid).buyer (st.escrows eid).amount = true) :
    (msg.sender = (st.escrows eid).buyer →
      (¬ (st.escrows eid).deadline < now → reverted (refund st msg now callOk eid) = true) ∧
      ((st.escrows eid).deadline < now →
        statusAfter (refund st msg now callOk eid) eid = some .Refunded ∧
        transfersOf (refund st msg now callOk eid)
          = some [((st.escrows eid).buyer, (st.escrows eid).amount)])) ∧
    ((msg.sender = st.owner ∨ msg.sender = st.oracle) →
      msg.sender ≠ (st.escrows eid).buyer →
      statusAfter (refund st msg now callOk eid) eid = some .Refunded ∧
      transfersOf (refund st msg now callOk eid)
        = some [((st.escrows eid).buyer, (st.escrows eid).amount)]) := by
  constructor
  · intro hbuyer
    constructor
    · intro hlate
      simp [refund, hex, hst, hbuyer, hlate, hver, hamt, reverted]
    · intro hlate
      simp [refund, hex, hst, hbuyer, hlate, hver, hamt, hcall, statusAfter, escrowAfter,
            transfersOf, Function.update]
  · intro hrole hnotbuyer
    simp [refund, hex, hst, hrole, hnotbuyer, hver, hamt, hcall, statusAfter, escrowAfter,
          transfersOf, Function.update]

/-- Witness: C4 at a concrete Funded escrow (deadline 5000): buyer refund at
time 5000 reverts, buyer refund at 5001 succeeds, oracle refund at time 0
succeeds. -/
theorem refund_deadline_gating_witness :
    escrowExistsP (sampleState .Funded) 1 ∧
    reverted (refund (sampleState .Funded) ⟨11, 0⟩ 5000 okAll 1) = true ∧
    statusAfter (refund (sampleState .Funded) ⟨11, 0⟩ 5001 okAll 1) 1 = some .Refunded ∧
    transfersOf (refund (sampleState .Funded) ⟨2, 0⟩ 0 okAll 1) = some [(11, 1000)] := by
  refine ⟨by decide, ?_, ?_, ?_⟩
  · exact ((refund_deadline_gating (sampleState .Funded) ⟨11, 0⟩ 5000 okAll 1 (by decide)
      (Or.inl rfl) (by decide) rfl rfl).1 rfl).1 (by decide)
  · exact (((refund_deadline_gating (sampleState .Funded) ⟨11, 0⟩ 5001 okAll 1 (by decide)
      (Or.inl rfl) (by decide) rfl rfl).1 rfl).2 (by decide)).1
  · exact ((refund_deadline_gating (sampleState .Funded) ⟨2, 0⟩ 0 okAll 1 (by decide)
      (Or.inl rfl) (by decide) rfl rfl).2 (Or.inr rfl) (by decide)).2

end Escrow

namespace Abi

/-- C5: the backend contract-config ABI does not match the contract.  Its
`verifyDelivery` entry declares parameters (uint256, string, int256, bool,
bool), which matches no function or event of EscrowContract.sol — the
contract's `verifyDelivery` takes (uint256, string, int256, int256, int256,
bool, bool, bool, bool) — and its `EscrowCreated` event (with a uint256
amount parameter) likewise matches no contract event. -/
theorem backend_verifyDelivery_signature_mismatch :
    (⟨"verifyDelivery", ["uint256", "string", "int256", "bool", "bool"]⟩ : FnSig)
        ∈ backendAbiFunctions ∧
    ¬ matchesContract ⟨"verifyDelivery", ["uint256", "string", "int256", "bool", "bool"]⟩ ∧
    (⟨"verifyDelivery", ["uint256", "string", "int256", "int256", "int256",
        "bool", "bool", "bool", "bool"]⟩ : FnSig) ∈ contractFunctions ∧
    (⟨"EscrowCreated", ["uint256", "address", "address", "uint256", "string", "uint256"]⟩ :
        FnSig) ∈ backendAbiEvents ∧
    ¬ matchesContract
        ⟨"EscrowCreated", ["uint256", "address", "address", "uint256", "string", "uint256"]⟩ := by
  decide

end Abi

namespace OracleSvc

/-- C6: the contract's Delivered status has ordinal 5, yet
`processVerificationRequest` gates on the literal 3 (Funded's ordinal): for
an unverified escrow whose on-chain status is Delivered (5) it returns the
statusNotReady marker carrying that status, and it proceeds with the
fetch-validate-submit pipeline exactly when the status is Funded (3). -/
theorem gate_rejects_delivered_status :
    Escrow.EscrowStatus.toNat .Delivered = 5 ∧
    processVerificationGate (Escrow.EscrowStatus.toNat .Delivered) false = .statusNotReady 5 ∧
    Escrow.EscrowStatus.toNat .Funded = 3 ∧
    processVerificationGate (Escrow.EscrowStatus.toNat .Funded) false = .proceedPipeline ∧
    processVerificationGate (Escrow.EscrowStatus.toNat .Delivered) true = .alreadyVerified := by
  decide

end OracleSvc

namespace Auth

/-- C8: `Session.findByToken` compares the stored ISO-8601 `expires_at`
string ("YYYY-MM-DDTHH:MM:SS.sssZ") lexicographically against SQLite's
`datetime('now')` text ("YYYY-MM-DD HH:MM:SS"); since 'T' sorts above ' ',
a session that expired at 08:00 UTC is still returned (and still authorizes
the bearer gate) at 14:00 UTC of the same day, while a session expired the
previous day is correctly invisible. -/
theorem findByToken_returns_expired_same_day_session :
    DateTime.toMillis ⟨2026, 10, 11, 8, 0, 0, 0⟩
        < DateTime.toMillis ⟨2026, 10, 11, 14, 0, 0, 0⟩ ∧
    findByToken [⟨1, "alice", "alice@mail", "shipper", "0xaaa"⟩]
        [⟨1, "tok1", "0xaaa", ⟨2026, 10, 11, 8, 0, 0, 0⟩⟩]
        ⟨2026, 10, 11, 14, 0, 0, 0⟩ "tok1"
      = some ⟨1, "tok1", "0xaaa", ⟨2026, 10, 11, 8, 0, 0, 0⟩, "alice", "alice@mail", "shipper"⟩ ∧
    bearerAuthorized [⟨1, "alice", "alice@mail", "shipper", "0xaaa"⟩]
        [⟨1, "tok1", "0xaaa", ⟨2026, 10, 11, 8, 0, 0, 0⟩⟩]
        ⟨2026, 10, 11, 14, 0, 0, 0⟩ "tok1" = true ∧
    findByToken [⟨1, "alice", "alice@mail", "shipper", "0xaaa"⟩]
        [⟨1, "tok1", "0xaaa", ⟨2026, 10, 10, 8, 0, 0, 0⟩⟩]
        ⟨2026, 10, 11, 14, 0, 0, 0⟩ "tok1" = none := by
  decide

end Auth

namespace Validator

/-- C9: `validateTemperature` divides each ×100-scaled bound by 100 and is
valid exactly when min/100 ≤ t ≤ max/100 (boundaries inclusive), with delta
0 in range, t − min/100 (negative) below the minimum and t − max/100
(positive) above the maximum; concretely, with bounds 0 and 3000, reading
25.0 is valid, 31.0 is invalid with delta 1.0 and −1.0 is invalid with
delta −1.0. -/
theorem validateTemperature_banding (t mn mx : ℚ) (hminmax : mn ≤ mx) :
    ((validateTemperature t mn mx).valid = true ↔ mn / 100 ≤ t ∧ t ≤ mx / 100) ∧
    (mn / 100 ≤ t ∧ t ≤ mx / 100 → (validateTemperature t mn mx).delta = 0) ∧
    (t < mn / 100 → (validateTemperature t mn mx).delta = t - mn / 100) ∧
    (mx / 100 < t → (validateTemperature t mn mx).delta = t - mx / 100) ∧
    (validateTemperature 25 0 3000).valid = true ∧
    validateTemperature 31 0 3000 = ⟨false, 1, 31, 0, 30⟩ ∧
    validateTemperature (-1) 0 3000 = ⟨false, -1, -1, 0, 30⟩ := by
  refine ⟨?_, ?_, ?_, ?_, by norm_num [validateTemperature],
    by norm_num [validateTemperature], by norm_num [validateTemperature]⟩
  · simp [validateTemperature]
  · rintro ⟨h1, h2⟩
    simp [validateTemperature, not_lt.2 h1, not_lt.2 h2]
  · intro h1
    simp [validateTemperature, h1]
  · intro h1
    have hmm : mn / 100 ≤ mx / 100 := by linarith
    have h2 : ¬ t < mn / 100 := not_lt.2 (by linarith)
    simp [validateTemperature, h1, h2]

/-- Witness: C9 applied at reading 31 with bounds 0 and 3000. -/
theorem validateTemperature_banding_witness :
    ((0 : ℚ) ≤ 3000 ∧ (3000 : ℚ) / 100 < 31) ∧
    (validateTemperature 31 0 3000).delta = 31 - 3000 / 100 := by
  refine ⟨⟨by norm_num, by norm_num⟩, ?_⟩
  exact (validateTemperature_banding 31 0 3000 (by norm_num)).2.2.2.1 (by norm_num)

end Validator

namespace Auth

/-- Rewriting one user's wallet address (keeping its id, username, email and
role) does not change the row that `find?`-by-id followed by `joinRow`
produces, since the joined row takes only username/email/role from the user. -/
theorem joinRow_find_after_wallet_rewrite (s : SessionRow) (users : List UserRow)
    (uid : Nat) (newAddr : String) :
    ((users.map fun u =>
        if u.id = uid then
          {u with username := u.username, email := u.email, role := u.role,
                  wallet_address := newAddr}
        else u).find? fun u => u.id = s.user_id).map (joinRow s)
      = (users.find? fun u => u.id = s.user_id).map (joinRow s) := by
  induction users with
  | nil => rfl
  | cons u rest ih =>
    have hfid : (if u.id = uid then
        ({u with username := u.username, email := u.email, role := u.role,
                 wallet_address := newAddr} : UserRow)
      else u).id = u.id := by
      by_cases h : u.id = uid <;> simp [h]
    have hfjoin : joinRow s (if u.id = uid then
        ({u with username := u.username, email := u.email, role := u.role,
                 wallet_address := newAddr} : UserRow)
      else u) = joinRow s u := by
      by_cases h : u.id = uid <;> simp [h, joinRow]
    simp only [List.map_cons]
    by_cases hid : u.id = s.user_id
    · rw [List.find?_cons_of_pos _ (by simp only [decide_eq_true_eq]; rw [hfid]; exact hid),
          List.find?_cons_of_pos _ (by simp only [decide_eq_true_eq]; exact hid)]
      simp [hfjoin]
    · rw [List.find?_cons_of_neg _ (by simp only [decide_eq_true_eq]; rw [hfid]; exact hid),
          List.find?_cons_of_neg _ (by simp only [decide_eq_true_eq]; exact hid)]
      exact ih

/-- C10: a successful PUT /api/auth/wallet (user-row rewrite plus insertion
of one fresh session) leaves `Session.findByToken` unchanged on every token
other than the newly issued one: previously issued sessions still resolve
to exactly the same joined row, wallet_address snapshot included. -/
theorem walletUpdate_preserves_sessions
    (users : List UserRow) (sessions : List SessionRow)
    (uid : Nat) (newAddr : String) (newSession : SessionRow)
    (now : DateTime) (tok : String)
    (htok : tok ≠ newSession.token) :
    findByToken (walletUpdateApply users sessions uid newAddr newSession).1
        (walletUpdateApply users sessions uid newAddr newSession).2 now tok
      = findByToken users sessions now tok := by
  simp only [walletUpdateApply, findByToken]
  rw [List.filterMap_append]
  have hnew : (List.filterMap (fun s =>
      if s.token = tok ∧ strLt (sqliteNow now) (isoString s.expires_at) = true then
        ((users.map fun u =>
          if u.id = uid then
            {u with username := u.username, email := u.email, role := u.role,
                    wallet_address := newAddr}
          else u).find? fun u => u.id = s.user_id).map (joinRow s)
      else none) [newSession]) = [] := by
    have : ¬ newSession.token = tok := fun h => htok h.symm
    simp [this]
  rw [hnew, List.append_nil]
  congr 1
  apply List.filterMap_congr
  intro s hs
  by_cases hc : s.token = tok ∧ strLt (sqliteNow now) (isoString s.expires_at) = true
  · simp only [hc, if_true, if_pos hc]
    exact joinRow_find_after_wallet_rewrite s users uid newAddr
  · simp [hc]

/-- Witness: C10 at a concrete store — after the wallet update, the old
token still resolves, to a row whose wallet_address is still the old
snapshot. -/
theorem walletUpdate_preserves_sessions_witness :
    ("tokOld" ≠ "tokNew") ∧
    findByToken
        (walletUpdateApply [⟨1, "alice", "alice@mail", "shipper", "0xold"⟩]
          [⟨1, "tokOld", "0xold", ⟨2026, 10, 12, 0, 0, 0, 0⟩⟩] 1 "0xnew"
          ⟨1, "tokNew", "0xnew", ⟨2026, 10, 12, 12, 0, 0, 0⟩⟩).1
        (walletUpdateApply [⟨1, "alice", "alice@mail", "shipper", "0xold"⟩]
          [⟨1, "tokOld", "0xold", ⟨2026, 10, 12, 0, 0, 0, 0⟩⟩] 1 "0xnew"
          ⟨1, "tokNew", "0xnew", ⟨2026, 10, 12, 12, 0, 0, 0⟩⟩).2
        ⟨2026, 10, 11, 12, 0, 0, 0⟩ "tokOld"
      = findByToken [⟨1, "alice", "alice@mail", "shipper", "0xold"⟩]
          [⟨1, "tokOld", "0xold", ⟨2026, 10, 12, 0, 0, 0, 0⟩⟩]
          ⟨2026, 10, 11, 12, 0, 0, 0⟩ "tokOld" ∧
    (findByToken [⟨1, "alice", "alice@mail", "shipper", "0xold"⟩]
          [⟨1, "tokOld", "0xold", ⟨2026, 10, 12, 0, 0, 0, 0⟩⟩]
          ⟨2026, 10, 11, 12, 0, 0, 0⟩ "tokOld").map (·.wallet_address)
      = some "0xold" := by
  refine ⟨by decide, ?_, by decide⟩
  exact walletUpdate_preserves_sessions [⟨1, "alice", "alice@mail", "shipper", "0xold"⟩]
    [⟨1, "tokOld", "0xold", ⟨2026, 10, 12, 0, 0, 0, 0⟩⟩] 1 "0xnew"
    ⟨1, "tokNew", "0xnew", ⟨2026, 10, 12, 12, 0, 0, 0⟩⟩ ⟨2026, 10, 11, 12, 0, 0, 0⟩
    "tokOld" (by decide)

end Auth

namespace Sim

/-- Invariant of the tick loop: before the final step the simulation is
in_transit with the timer set and progress n/steps; at the final step the
record ends `stopped` (the completion branch assigns `delivered` and then
`stopDeliverySimulation` overwrites it), with the GPS snapped to the
destination, the timer cleared and progress 1. -/
theorem simAfter_invariant (cfg : SimConfig) (r : Nat → ℚ) (hs : 0 < steps cfg) :
    ∀ n : Nat,
      (n < steps cfg →
        (simAfter cfg r n).status = .inTransit ∧
        (simAfter cfg r n).timerActive = true ∧
        (simAfter cfg r n).progress = (n : ℚ) / (steps cfg : ℚ)) ∧
      (n = steps cfg →
        (simAfter cfg r n).status = .stopped ∧
        (simAfter cfg r n).timerActive = false ∧
        (simAfter cfg r n).currentGPS = cfg.destinationGPS ∧
        (simAfter cfg r n).progress = 1) := by
  intro n
  induction n with
  | zero =>
    constructor
    · intro _
      refine ⟨rfl, rfl, ?_⟩
      simp [simAfter, initialDelivery]
    · intro h0
      exact absurd h0.symm (Nat.ne_of_gt hs)
  | succ n ih =>
    have hcast : (0 : ℚ) < (steps cfg : ℚ) := by exact_mod_cast hs
    constructor
    · intro hlt
      have hn : n < steps cfg := Nat.lt_of_succ_lt hlt
      obtain ⟨hstat, htimer, _⟩ := ih.1 hn
      have hfrac : ((n : ℚ) + 1) / (steps cfg : ℚ) < 1 := by
        rw [div_lt_one hcast]
        exact_mod_cast hlt
      have hmin : min (((n : ℚ) + 1) / (steps cfg : ℚ)) 1
          = ((n : ℚ) + 1) / (steps cfg : ℚ) := min_eq_left (le_of_lt hfrac)
      have hnot : ¬ (1 : ℚ) ≤ ((n : ℚ) + 1) / (steps cfg : ℚ) := not_le.2 hfrac
      refine ⟨?_, ?_, ?_⟩ <;>
        simp [simAfter, tick, htimer, hstat, hmin, hnot]
    · intro heq
      have hn : n < steps cfg := by omega
      obtain ⟨hstat, htimer, _⟩ := ih.1 hn
      have hone : ((n : ℚ) + 1) / (steps cfg : ℚ) = 1 := by
        have hcs : ((n : ℚ) + 1) = (steps cfg : ℚ) := by exact_mod_cast heq
        rw [hcs]
        exact div_self (ne_of_gt hcast)
      have hmin : min (((n : ℚ) + 1) / (steps cfg : ℚ)) 1 = 1 := by
        rw [hone]; exact min_self 1
      have hge : (1 : ℚ) ≤ ((n : ℚ) + 1) / (steps cfg : ℚ) := le_of_eq hone.symm
      refine ⟨?_, ?_, ?_, ?_⟩ <;>
        simp [simAfter, tick, htimer, hmin, hge, stopDelivery]

/-- C7: in the 60000 ms scenario (30 steps of 2000 ms) progress rises
monotonically as n/30 through the in_transit ticks, and at the 30th tick
the GPS is snapped exactly to the destination and the timer is cleared —
but the queryable status is `stopped`, not `delivered`: the completion
branch's `delivered` assignment is immediately overwritten by
`stopDeliverySimulation`. -/
theorem scenario_completion_status_stopped :
    steps scenarioConfig = 30 ∧
    (∀ n : Nat, n < 30 →
      (simAfter scenarioConfig (fun _ => 1 / 2) n).status = .inTransit ∧
      (simAfter scenarioConfig (fun _ => 1 / 2) n).progress = (n : ℚ) / 30) ∧
    (simAfter scenarioConfig (fun _ => 1 / 2) 30).status = .stopped ∧
    (simAfter scenarioConfig (fun _ => 1 / 2) 30).status ≠ .delivered ∧
    (simAfter scenarioConfig (fun _ => 1 / 2) 30).currentGPS
      = scenarioConfig.destinationGPS ∧
    (simAfter scenarioConfig (fun _ => 1 / 2) 30).timerActive = false ∧
    (simAfter scenarioConfig (fun _ => 1 / 2) 30).progress = 1 := by
  have hsteps : steps scenarioConfig = 30 := rfl
  have hinv := simAfter_invariant scenarioConfig (fun _ => 1 / 2) (by rw [hsteps]; omega)
  have hfinal := (hinv 30).2 hsteps.symm
  refine ⟨hsteps, ?_, hfinal.1, ?_, hfinal.2.2.1, hfinal.2.1, hfinal.2.2.2⟩
  · intro n hn
    have h1 := (hinv n).1 (by omega)
    exact ⟨h1.1, by rw [h1.2.2, hsteps]; norm_num⟩
  · rw [hfinal.1]
    simp

end Sim

namespace Sim

/-- Witness: the C7 theorem's intermediate-tick clause applied at tick 7. -/
theorem scenario_completion_status_stopped_witness :
    (7 : Nat) < 30 ∧
    (simAfter scenarioConfig (fun _ => 1 / 2) 7).status = .inTransit ∧
    (simAfter scenarioConfig (fun _ => 1 / 2) 7).progress = ((7 : ℕ) : ℚ) / 30 := by
  refine ⟨by norm_num, ?_, ?_⟩
  · exact (scenario_completion_status_stopped.2.1 7 (by norm_num)).1
  · exact (scenario_completion_status_stopped.2.1 7 (by norm_num)).2

end Sim
